import Mathlib

/-!
Verification of the calculation core of the pump energy-analysis
application (`apppumps.py`): the fluid property table `FLUIDOS`, the
head-loss model `calcular_perda_carga`, the energy/cost model
`calcular_analise_energetica`, and the advisory rule engine
`gerar_sugestoes`.

The energy/cost model and the rule engine use only field operations and
comparisons, so they are embedded over `ℚ` (exact, computable).  The
head-loss model uses `π`, `log10` and a real exponent `0.9`, so it is
embedded over `ℝ`.  Fluid lookup failure (Python `KeyError`, the spec's
`UnknownFluidError`) is modelled by `Option`: `none` is the error.
-/

namespace Pumps

/-- Fluid properties: density `rho` (kg/m³) and kinematic viscosity
`nu` (m²/s), as stored in the `FLUIDOS` dictionary. -/
structure FluidProps where
  rho : ℚ
  nu : ℚ
deriving DecidableEq, Repr

/-- The fluid property dictionary `FLUIDOS` of `apppumps.py`, as a lookup
function: `none` models the `KeyError` (spec: `UnknownFluidError`) on an
absent key. -/
def FLUIDOS (k : String) : Option FluidProps :=
  if k = "Água a 20°C" then some ⟨998.2, 1.004e-6⟩
  else if k = "Etanol a 20°C" then some ⟨789.0, 1.51e-6⟩
  else if k = "Glicerina a 20°C" then some ⟨1261.0, 1.49e-3⟩
  else if k = "Óleo Leve (genérico)" then some ⟨880.0, 1.5e-5⟩
  else none

/-- The dictionary returned by `calcular_analise_energetica`. -/
structure EnergyResult where
  potencia_hidraulica_kW : ℚ
  potencia_eixo_kW : ℚ
  potencia_eletrica_kW : ℚ
  consumo_mensal_kWh : ℚ
  custo_mensal : ℚ
  custo_anual : ℚ
deriving DecidableEq, Repr

/-- `calcular_analise_energetica` of `apppumps.py`.  The fluid lookup
happens first (`FLUIDOS[fluido]["rho"]`); an unknown key is the only
error (`none`).  All arithmetic follows the source line by line. -/
def calcular_analise_energetica (vazao_m3h h_man eficiencia_bomba
    eficiencia_motor horas_dia custo_kwh : ℚ) (fluido : String) :
    Option EnergyResult :=
  match FLUIDOS fluido with
  | none => none
  | some props =>
    let rho := props.rho
    let g : ℚ := 9.81
    let vazao_m3s := vazao_m3h / 3600
    let potencia_hidraulica_W := vazao_m3s * rho * g * h_man
    let potencia_eixo_W :=
      if eficiencia_bomba > 0 then potencia_hidraulica_W / eficiencia_bomba
      else 0
    let potencia_eletrica_W :=
      if eficiencia_motor > 0 then potencia_eixo_W / eficiencia_motor
      else 0
    let potencia_eletrica_kW := potencia_eletrica_W / 1000
    let consumo_diario_kWh := potencia_eletrica_kW * horas_dia
    let consumo_mensal_kWh := consumo_diario_kWh * 30
    let custo_mensal := consumo_mensal_kWh * custo_kwh
    let custo_anual := custo_mensal * 12
    some
      { potencia_hidraulica_kW := potencia_hidraulica_W / 1000
        potencia_eixo_kW := potencia_eixo_W / 1000
        potencia_eletrica_kW := potencia_eletrica_kW
        consumo_mensal_kWh := consumo_mensal_kWh
        custo_mensal := custo_mensal
        custo_anual := custo_anual }

/-- First advisory string of `gerar_sugestoes` (pump efficiency below 60%). -/
def sugestao_bomba : String :=
  "Eficiência da bomba abaixo de 60%. Considere a substituição por um modelo mais moderno e eficiente."

/-- Second advisory string of `gerar_sugestoes` (motor efficiency below 85%). -/
def sugestao_motor : String :=
  "Eficiência do motor abaixo de 85%. Motores de alto rendimento (IR3+) podem gerar grande economia."

/-- Third advisory string of `gerar_sugestoes` (annual cost above 5000). -/
def sugestao_inversor : String :=
  "Se a vazão for variável, um inversor de frequência pode reduzir drasticamente o consumo de energia."

/-- Unconditional final advisory string of `gerar_sugestoes`. -/
def sugestao_manutencao : String :=
  "Realize manutenções preventivas, verifique vazamentos e o estado dos rotores e selos da bomba."

/-- `gerar_sugestoes` of `apppumps.py`: three threshold rules appending in
order, then the unconditional maintenance reminder. -/
def gerar_sugestoes (eficiencia_bomba eficiencia_motor custo_anual : ℚ) :
    List String :=
  let sugestoes : List String := []
  let sugestoes :=
    if eficiencia_bomba < 0.6 then sugestoes ++ [sugestao_bomba] else sugestoes
  let sugestoes :=
    if eficiencia_motor < 0.85 then sugestoes ++ [sugestao_motor] else sugestoes
  let sugestoes :=
    if custo_anual > 5000 then sugestoes ++ [sugestao_inversor] else sugestoes
  sugestoes ++ [sugestao_manutencao]

noncomputable section

/-- The Reynolds-number computation of `calcular_perda_carga`:
`(velocidade * diametro_m) / nu if nu > 0 else 0`. -/
def reynolds (velocidade diametro_m nu : ℝ) : ℝ :=
  if nu > 0 then velocidade * diametro_m / nu else 0

/-- The friction-factor computation of `calcular_perda_carga`:
Swamee–Jain for `reynolds > 4000`, else `64 / reynolds if reynolds > 0
else 0`. -/
def fator_atrito (re rugosidade_m diametro_m : ℝ) : ℝ :=
  if re > 4000 then
    0.25 / (Real.logb 10 (rugosidade_m / (3.7 * diametro_m)
      + 5.74 / re ^ (0.9 : ℝ))) ^ 2
  else if re > 0 then 64 / re
  else 0

/-- `calcular_perda_carga` of `apppumps.py`.  The fluid lookup happens
first; its failure (`none`) is the only error.  If the cross-sectional
area is zero the pair `(0, 0)` is returned before any division by it. -/
def calcular_perda_carga (vazao_m3h diametro_mm comprimento_m
    rugosidade_mm k_total : ℝ) (fluido : String) : Option (ℝ × ℝ) :=
  match FLUIDOS fluido with
  | none => none
  | some props =>
    let vazao_m3s := vazao_m3h / 3600
    let diametro_m := diametro_mm / 1000
    let rugosidade_m := rugosidade_mm / 1000
    let nu : ℝ := (props.nu : ℝ)
    let area := Real.pi * diametro_m ^ 2 / 4
    if area = 0 then some (0, 0)
    else
      let velocidade := vazao_m3s / area
      let re := reynolds velocidade diametro_m nu
      let f := fator_atrito re rugosidade_m diametro_m
      let perda_carga_principal :=
        f * (comprimento_m / diametro_m) * (velocidade ^ 2 / (2 * 9.81))
      let perda_carga_localizada :=
        k_total * (velocidade ^ 2 / (2 * 9.81))
      some (perda_carga_principal, perda_carga_localizada)

/-- The friction factor of `calcular_perda_carga` with Python's numeric
error paths made explicit: in the turbulent branch `math.log10` raises
`ValueError` on a non-positive argument, and `0.25 / log10(...) ** 2`
raises `ZeroDivisionError` when the logarithm is exactly 0.  Both raises
are modelled as `none`; `fator_atrito` is the total projection of this
function (they agree whenever this one returns a value). -/
def fator_atrito_exc (re rugosidade_m diametro_m : ℝ) : Option ℝ :=
  if re > 4000 then
    if rugosidade_m / (3.7 * diametro_m) + 5.74 / re ^ (0.9 : ℝ) ≤ 0 then
      none
    else if Real.logb 10 (rugosidade_m / (3.7 * diametro_m)
        + 5.74 / re ^ (0.9 : ℝ)) = 0 then
      none
    else
      some (0.25 / Real.logb 10 (rugosidade_m / (3.7 * diametro_m)
        + 5.74 / re ^ (0.9 : ℝ)) ^ 2)
  else if re > 0 then some (64 / re)
  else some 0

/-- `calcular_perda_carga` of `apppumps.py` with every Python error path
modelled: `none` covers the unknown-fluid `KeyError` and the turbulent
branch's `ValueError`/`ZeroDivisionError` (via `fator_atrito_exc`); all
other divisions in the source are guarded (`area == 0` early return,
`nu > 0` guard, `reynolds > 0` guard), so no further error exists. -/
def calcular_perda_carga_exc (vazao_m3h diametro_mm comprimento_m
    rugosidade_mm k_total : ℝ) (fluido : String) : Option (ℝ × ℝ) :=
  match FLUIDOS fluido with
  | none => none
  | some props =>
    let vazao_m3s := vazao_m3h / 3600
    let diametro_m := diametro_mm / 1000
    let rugosidade_m := rugosidade_mm / 1000
    let nu : ℝ := (props.nu : ℝ)
    let area := Real.pi * diametro_m ^ 2 / 4
    if area = 0 then some (0, 0)
    else
      let velocidade := vazao_m3s / area
      let re := reynolds velocidade diametro_m nu
      match fator_atrito_exc re rugosidade_m diametro_m with
      | none => none
      | some f =>
        some (f * (comprimento_m / diametro_m) *
            (velocidade ^ 2 / (2 * 9.81)),
          k_total * (velocidade ^ 2 / (2 * 9.81)))

end

/-- Accessor used to state cost monotonicity: the annual cost of an
energy analysis, with default `0` for an unknown fluid. -/
def custo_anual_de (Q H ep em h t : ℚ) (f : String) : ℚ :=
  ((calcular_analise_energetica Q H ep em h t f).map EnergyResult.custo_anual).getD 0

/-! ## Supporting lemmas -/

/-- Every density stored in the fluid table is positive. -/
lemma FLUIDOS_rho_pos (f : String) (p : FluidProps)
    (hf : FLUIDOS f = some p) : 0 < p.rho := by
  unfold FLUIDOS at hf
  split_ifs at hf <;> cases hf <;> norm_num

/-- Unfolding lemma for `calcular_analise_energetica` on a known fluid. -/
lemma calcular_analise_energetica_eq (Q H ep em h t : ℚ) (f : String)
    (p : FluidProps) (hf : FLUIDOS f = some p) :
    calcular_analise_energetica Q H ep em h t f =
      some
        { potencia_hidraulica_kW := Q / 3600 * p.rho * 9.81 * H / 1000
          potencia_eixo_kW :=
            (if ep > 0 then Q / 3600 * p.rho * 9.81 * H / ep else 0) / 1000
          potencia_eletrica_kW :=
            (if em > 0 then
              (if ep > 0 then Q / 3600 * p.rho * 9.81 * H / ep else 0) / em
            else 0) / 1000
          consumo_mensal_kWh :=
            (if em > 0 then
              (if ep > 0 then Q / 3600 * p.rho * 9.81 * H / ep else 0) / em
            else 0) / 1000 * h * 30
          custo_mensal :=
            (if em > 0 then
              (if ep > 0 then Q / 3600 * p.rho * 9.81 * H / ep else 0) / em
            else 0) / 1000 * h * 30 * t
          custo_anual :=
            (if em > 0 then
              (if ep > 0 then Q / 3600 * p.rho * 9.81 * H / ep else 0) / em
            else 0) / 1000 * h * 30 * t * 12 } := by
  unfold calcular_analise_energetica
  rw [hf]

/-! ## Claim theorems -/

/-- C4: fluid lookup succeeds exactly on the four table keys, returns the
fixed (density, viscosity) pair for each of them, and fails (with the
unknown-fluid error, modelled as `none`) on any other key, in particular
on `"Unknown"`. -/
theorem fluidos_lookup_spec :
    (∀ k : String, (FLUIDOS k).isSome = true ↔
      k ∈ ["Água a 20°C", "Etanol a 20°C", "Glicerina a 20°C",
           "Óleo Leve (genérico)"]) ∧
    FLUIDOS "Água a 20°C" = some ⟨998.2, 1.004e-6⟩ ∧
    FLUIDOS "Etanol a 20°C" = some ⟨789.0, 1.51e-6⟩ ∧
    FLUIDOS "Glicerina a 20°C" = some ⟨1261.0, 1.49e-3⟩ ∧
    FLUIDOS "Óleo Leve (genérico)" = some ⟨880.0, 1.5e-5⟩ ∧
    FLUIDOS "Unknown" = none := by
  refine ⟨fun k => ?_, by simp [FLUIDOS], by simp [FLUIDOS], by simp [FLUIDOS],
    by simp [FLUIDOS], by simp [FLUIDOS]⟩
  unfold FLUIDOS
  split_ifs with h1 h2 h3 h4 <;> simp_all

/-- C8: `gerar_sugestoes` is the ordered concatenation of the pump advice
(iff pump efficiency < 0.6), the motor advice (iff motor efficiency
< 0.85), the drive advice (iff annual cost > 5000) and the unconditional
maintenance reminder; it is never empty, its last element is always the
maintenance reminder, and at (0.5, 0.7, 6000) it returns exactly the four
entries in order. -/
theorem gerar_sugestoes_spec :
    (∀ ep em c : ℚ,
      gerar_sugestoes ep em c =
        (if ep < 0.6 then [sugestao_bomba] else []) ++
        (if em < 0.85 then [sugestao_motor] else []) ++
        (if c > 5000 then [sugestao_inversor] else []) ++
        [sugestao_manutencao] ∧
      0 < (gerar_sugestoes ep em c).length ∧
      (gerar_sugestoes ep em c).getLast? = some sugestao_manutencao) ∧
    gerar_sugestoes 0.5 0.7 6000 =
      [sugestao_bomba, sugestao_motor, sugestao_inversor,
       sugestao_manutencao] := by
  constructor
  · intro ep em c
    refine ⟨?_, ?_, ?_⟩ <;> unfold gerar_sugestoes <;>
      split_ifs <;> simp [List.getLast?_concat]
  · unfold gerar_sugestoes
    norm_num

/-- C10: the energy analysis reads only the density of the selected
fluid, never its viscosity: two known fluid keys with equal stored
density give identical results for identical remaining arguments. -/
theorem energia_depende_apenas_da_densidade (Q H ep em h t : ℚ)
    (f1 f2 : String) (p1 p2 : FluidProps)
    (h1 : FLUIDOS f1 = some p1) (h2 : FLUIDOS f2 = some p2)
    (hrho : p1.rho = p2.rho) :
    calcular_analise_energetica Q H ep em h t f1 =
      calcular_analise_energetica Q H ep em h t f2 := by
  rw [calcular_analise_energetica_eq Q H ep em h t f1 p1 h1,
    calcular_analise_energetica_eq Q H ep em h t f2 p2 h2, hrho]

/-- Witness for C10 at concrete inputs. -/
theorem energia_depende_apenas_da_densidade_witness :
    calcular_analise_energetica 2 3 1 1 1 1 "Água a 20°C" =
      calcular_analise_energetica 2 3 1 1 1 1 "Água a 20°C" :=
  energia_depende_apenas_da_densidade 2 3 1 1 1 1 "Água a 20°C" "Água a 20°C"
    ⟨998.2, 1.004e-6⟩ ⟨998.2, 1.004e-6⟩ (by simp [FLUIDOS]) (by simp [FLUIDOS]) rfl

/-- C6: with pump efficiency 0 or motor efficiency 0 the energy analysis
returns electrical power 0 and zero consumption and costs, without any
error; shaft power is the guarded division `P_h / η_p` when `η_p > 0` and
`0` otherwise. -/
theorem energia_eficiencia_zero (Q H ep em h t : ℚ) (f : String)
    (p : FluidProps) (hf : FLUIDOS f = some p) (hzero : ep = 0 ∨ em = 0) :
    calcular_analise_energetica Q H ep em h t f =
      some ⟨Q / 3600 * p.rho * 9.81 * H / 1000,
        (if ep > 0 then Q / 3600 * p.rho * 9.81 * H / ep else 0) / 1000,
        0, 0, 0, 0⟩ := by
  rw [calcular_analise_energetica_eq Q H ep em h t f p hf]
  rcases hzero with h0 | h0 <;> subst h0 <;> norm_num

/-- Witness for C6 at concrete inputs (pump efficiency 0). -/
theorem energia_eficiencia_zero_witness :
    calcular_analise_energetica 1 1 0 1 1 1 "Água a 20°C" =
      some ⟨1 / 3600 * 998.2 * 9.81 * 1 / 1000,
        (if (0 : ℚ) > 0 then 1 / 3600 * 998.2 * 9.81 * 1 / 0 else 0) / 1000,
        0, 0, 0, 0⟩ :=
  energia_eficiencia_zero 1 1 0 1 1 1 "Água a 20°C" ⟨998.2, 1.004e-6⟩
    (by simp [FLUIDOS]) (Or.inl rfl)

/-- C2 fails as stated: pump efficiency 0 satisfies "efficiency ≤ 1" but
makes shaft power 0 while hydraulic power is positive, so hydraulic ≤
shaft is violated (flow 1 > 0, head 1 > 0, hours 1 ∈ [0,24], tariff 0 ≥ 0). -/
theorem energia_cadeia_potencias_cex :
    calcular_analise_energetica 1 1 0 1 1 0 "Água a 20°C" =
      some ⟨998.2 * 9.81 / 3600 / 1000, 0, 0, 0, 0, 0⟩ ∧
    (0 : ℚ) < 998.2 * 9.81 / 3600 / 1000 := by
  constructor
  · rw [calcular_analise_energetica_eq 1 1 0 1 1 0 "Água a 20°C"
      ⟨998.2, 1.004e-6⟩ (by simp [FLUIDOS])]
    norm_num
  · norm_num

/-- C2 (amended): when both efficiencies lie in (0,1] — and flow > 0,
head > 0, tariff ≥ 0, hours in [0,24] — the result satisfies
0 ≤ hydraulic power ≤ shaft power ≤ electrical power. -/
theorem energia_cadeia_potencias (Q H ep em h t : ℚ) (f : String)
    (p : FluidProps) (hf : FLUIDOS f = some p)
    (hQ : 0 < Q) (hH : 0 < H) (hep0 : 0 < ep) (hep1 : ep ≤ 1)
    (hem0 : 0 < em) (hem1 : em ≤ 1) (ht : 0 ≤ t) (hh0 : 0 ≤ h)
    (hh24 : h ≤ 24) (r : EnergyResult)
    (hr : calcular_analise_energetica Q H ep em h t f = some r) :
    0 ≤ r.potencia_hidraulica_kW ∧
    r.potencia_hidraulica_kW ≤ r.potencia_eixo_kW ∧
    r.potencia_eixo_kW ≤ r.potencia_eletrica_kW := by
  rw [calcular_analise_energetica_eq Q H ep em h t f p hf] at hr
  have hrec := (Option.some.inj hr).symm
  subst hrec
  have hrho := FLUIDOS_rho_pos f p hf
  have hph : 0 ≤ Q / 3600 * p.rho * 9.81 * H :=
    mul_nonneg (mul_nonneg (mul_nonneg (div_nonneg hQ.le (by norm_num))
      hrho.le) (by norm_num)) hH.le
  dsimp only
  rw [if_pos hep0, if_pos hem0]
  have hps : 0 ≤ Q / 3600 * p.rho * 9.81 * H / ep := div_nonneg hph hep0.le
  refine ⟨div_nonneg hph (by norm_num), ?_, ?_⟩
  · rw [div_le_div_iff_of_pos_right]  -- placeholder, fixed below if needed
    · rw [le_div_iff hep0]
      exact mul_le_of_le_one_right hph hep1
    · norm_num
  · rw [div_le_div_iff_of_pos_right]
    · rw [le_div_iff hem0]
      exact mul_le_of_le_one_right hps hem1
    · norm_num

/-- Witness for the amended C2 at concrete inputs. -/
theorem energia_cadeia_potencias_witness :
    0 ≤ (⟨998.2 * 9.81 / 3600 / 1000, 998.2 * 9.81 / 3600 / 1000,
          998.2 * 9.81 / 3600 / 1000, 998.2 * 9.81 / 3600 / 1000 * 30,
          998.2 * 9.81 / 3600 / 1000 * 30,
          998.2 * 9.81 / 3600 / 1000 * 30 * 12⟩ :
            EnergyResult).potencia_hidraulica_kW ∧
    (⟨998.2 * 9.81 / 3600 / 1000, 998.2 * 9.81 / 3600 / 1000,
      998.2 * 9.81 / 3600 / 1000, 998.2 * 9.81 / 3600 / 1000 * 30,
      998.2 * 9.81 / 3600 / 1000 * 30,
      998.2 * 9.81 / 3600 / 1000 * 30 * 12⟩ :
        EnergyResult).potencia_hidraulica_kW ≤
      (⟨998.2 * 9.81 / 3600 / 1000, 998.2 * 9.81 / 3600 / 1000,
        998.2 * 9.81 / 3600 / 1000, 998.2 * 9.81 / 3600 / 1000 * 30,
        998.2 * 9.81 / 3600 / 1000 * 30,
        998.2 * 9.81 / 3600 / 1000 * 30 * 12⟩ :
          EnergyResult).potencia_eixo_kW ∧
    (⟨998.2 * 9.81 / 3600 / 1000, 998.2 * 9.81 / 3600 / 1000,
      998.2 * 9.81 / 3600 / 1000, 998.2 * 9.81 / 3600 / 1000 * 30,
      998.2 * 9.81 / 3600 / 1000 * 30,
      998.2 * 9.81 / 3600 / 1000 * 30 * 12⟩ :
        EnergyResult).potencia_eixo_kW ≤
      (⟨998.2 * 9.81 / 3600 / 1000, 998.2 * 9.81 / 3600 / 1000,
        998.2 * 9.81 / 3600 / 1000, 998.2 * 9.81 / 3600 / 1000 * 30,
        998.2 * 9.81 / 3600 / 1000 * 30,
        998.2 * 9.81 / 3600 / 1000 * 30 * 12⟩ :
          EnergyResult).potencia_eletrica_kW :=
  energia_cadeia_potencias 1 1 1 1 1 1 "Água a 20°C" ⟨998.2, 1.004e-6⟩
    (by simp [FLUIDOS]) (by norm_num) (by norm_num) (by norm_num)
    (by norm_num) (by norm_num) (by norm_num) (by norm_num) (by norm_num)
    (by norm_num) _
    (by rw [calcular_analise_energetica_eq 1 1 1 1 1 1 "Água a 20°C"
          ⟨998.2, 1.004e-6⟩ (by simp [FLUIDOS])]
        norm_num)

/-- Closed form of the annual cost on a known fluid: a nonnegative
coefficient (zero unless both efficiencies are positive) times
flow × head × hours × tariff. -/
lemma custo_anual_formula (Q H ep em h t : ℚ) (f : String) (p : FluidProps)
    (hf : FLUIDOS f = some p) :
    custo_anual_de Q H ep em h t f =
      (if ep > 0 then
        (if em > 0 then p.rho * 9.81 / (3600 * ep * em * 1000) else 0)
      else 0) * Q * H * h * t * 360 := by
  unfold custo_anual_de
  rw [calcular_analise_energetica_eq Q H ep em h t f p hf]
  dsimp only [Option.map, Option.getD]
  by_cases hep : ep > 0
  · by_cases hem : em > 0
    · simp only [if_pos hep, if_pos hem]
      have hep' : ep ≠ 0 := ne_of_gt hep
      have hem' : em ≠ 0 := ne_of_gt hem
      field_simp
      ring
    · simp only [if_pos hep, if_neg hem]
      norm_num
  · by_cases hem : em > 0
    · simp only [if_neg hep, if_pos hem]
      norm_num
    · simp only [if_neg hep, if_neg hem]
      norm_num

/-- C7: on a known fluid, the annual cost is monotone non-decreasing in
flow rate, head, daily hours and tariff separately, over nonnegative
inputs with efficiencies and fluid held fixed. -/
theorem custo_anual_monotono (f : String) (p : FluidProps)
    (hf : FLUIDOS f = some p) (Q Q' H H' h h' t t' ep em : ℚ)
    (hQ : 0 ≤ Q) (hQ' : 0 ≤ Q') (hH : 0 ≤ H) (hH' : 0 ≤ H')
    (hh : 0 ≤ h) (hh' : 0 ≤ h') (ht : 0 ≤ t) (ht' : 0 ≤ t')
    (hep : 0 ≤ ep) (hem : 0 ≤ em) :
    (Q ≤ Q' →
      custo_anual_de Q H ep em h t f ≤ custo_anual_de Q' H ep em h t f) ∧
    (H ≤ H' →
      custo_anual_de Q H ep em h t f ≤ custo_anual_de Q H' ep em h t f) ∧
    (h ≤ h' →
      custo_anual_de Q H ep em h t f ≤ custo_anual_de Q H ep em h' t f) ∧
    (t ≤ t' →
      custo_anual_de Q H ep em h t f ≤ custo_anual_de Q H ep em h t' f) := by
  have hrho := FLUIDOS_rho_pos f p hf
  have hE : 0 ≤ (if ep > 0 then
      (if em > 0 then p.rho * 9.81 / (3600 * ep * em * 1000) else 0)
    else 0) := by
    split_ifs with h1 h2
    · refine div_nonneg (mul_nonneg hrho.le (by norm_num)) ?_
      have h36 : (0 : ℚ) < 3600 := by norm_num
      have h1000 : (0 : ℚ) < 1000 := by norm_num
      exact (mul_pos (mul_pos (mul_pos h36 h1) h2) h1000).le
    · exact le_refl 0
    · exact le_refl 0
  refine ⟨fun hle => ?_, fun hle => ?_, fun hle => ?_, fun hle => ?_⟩ <;>
    rw [custo_anual_formula _ _ _ _ _ _ f p hf,
      custo_anual_formula _ _ _ _ _ _ f p hf] <;>
    gcongr

/-- Witness for C7 at concrete inputs (flow 1 ≤ 2). -/
theorem custo_anual_monotono_witness :
    custo_anual_de 1 1 1 1 1 1 "Água a 20°C" ≤
      custo_anual_de 2 1 1 1 1 1 "Água a 20°C" :=
  (custo_anual_monotono "Água a 20°C" ⟨998.2, 1.004e-6⟩ (by simp [FLUIDOS])
    1 2 1 1 1 1 1 1 1 1 (by norm_num) (by norm_num) (by norm_num)
    (by norm_num) (by norm_num) (by norm_num) (by norm_num) (by norm_num)
    (by norm_num) (by norm_num)).1 (by norm_num)

/-- Unfolding lemma for `calcular_perda_carga` on a known fluid when the
cross-sectional area is nonzero. -/
lemma calcular_perda_carga_eq (v d l rg k : ℝ) (f : String) (p : FluidProps)
    (hf : FLUIDOS f = some p)
    (hd : ¬ Real.pi * (d / 1000) ^ 2 / 4 = 0) :
    calcular_perda_carga v d l rg k f =
      some
        (fator_atrito
            (reynolds (v / 3600 / (Real.pi * (d / 1000) ^ 2 / 4)) (d / 1000)
              (p.nu : ℝ)) (rg / 1000) (d / 1000) *
          (l / (d / 1000)) *
          ((v / 3600 / (Real.pi * (d / 1000) ^ 2 / 4)) ^ 2 / (2 * 9.81)),
        k * ((v / 3600 / (Real.pi * (d / 1000) ^ 2 / 4)) ^ 2 / (2 * 9.81))) := by
  unfold calcular_perda_carga
  rw [hf]
  dsimp only
  rw [if_neg hd]

/-- Unfolding lemma for `calcular_perda_carga` on a known fluid when the
cross-sectional area is zero. -/
lemma calcular_perda_carga_eq_zero (v d l rg k : ℝ) (f : String)
    (p : FluidProps) (hf : FLUIDOS f = some p)
    (hd : Real.pi * (d / 1000) ^ 2 / 4 = 0) :
    calcular_perda_carga v d l rg k f = some (0, 0) := by
  unfold calcular_perda_carga
  rw [hf]
  dsimp only
  rw [if_pos hd]

/-- C5: with diameter 0 (zero cross-sectional area) the head-loss
computation returns exactly (0, 0) for any known fluid and any other
arguments, without error or division by zero. -/
theorem perda_carga_diametro_zero (v l rg k : ℝ) (f : String)
    (p : FluidProps) (hf : FLUIDOS f = some p) :
    calcular_perda_carga v 0 l rg k f = some (0, 0) := by
  apply calcular_perda_carga_eq_zero v 0 l rg k f p hf
  norm_num

/-- Witness for C5 at concrete inputs. -/
theorem perda_carga_diametro_zero_witness :
    calcular_perda_carga 50 0 100 0.15 5 "Água a 20°C" = some (0, 0) :=
  perda_carga_diametro_zero 50 100 0.15 5 "Água a 20°C" ⟨998.2, 1.004e-6⟩
    (by simp [FLUIDOS])

/-- C1: for positive diameter and viscosity the friction factor used by
the head-loss computation is exactly the Swamee–Jain expression
0.25 / (log10(ε/(3.7·D) + 5.74/Re^0.9))² when Re > 4000, exactly 64/Re
when 0 < Re ≤ 4000, and 0 when Re ≤ 0, with Re = v·D/ν; and the
principal head loss returned is this factor times (L/D)·(v²/(2·9.81)). -/
theorem fator_atrito_spec (vazao diametro_mm comprimento rug k : ℝ)
    (f : String) (p : FluidProps) (hf : FLUIDOS f = some p)
    (hd : 0 < diametro_mm) (hnu : 0 < p.nu) :
    (∀ re rug_m dm : ℝ,
      (4000 < re →
        fator_atrito re rug_m dm =
          0.25 /
            Real.logb 10 (rug_m / (3.7 * dm) + 5.74 / re ^ (0.9 : ℝ)) ^ 2) ∧
      (0 < re → re ≤ 4000 → fator_atrito re rug_m dm = 64 / re) ∧
      (re ≤ 0 → fator_atrito re rug_m dm = 0)) ∧
    reynolds (vazao / 3600 / (Real.pi * (diametro_mm / 1000) ^ 2 / 4))
        (diametro_mm / 1000) (p.nu : ℝ) =
      vazao / 3600 / (Real.pi * (diametro_mm / 1000) ^ 2 / 4) *
        (diametro_mm / 1000) / (p.nu : ℝ) ∧
    calcular_perda_carga vazao diametro_mm comprimento rug k f =
      some
        (fator_atrito
            (reynolds
              (vazao / 3600 / (Real.pi * (diametro_mm / 1000) ^ 2 / 4))
              (diametro_mm / 1000) (p.nu : ℝ)) (rug / 1000)
            (diametro_mm / 1000) *
          (comprimento / (diametro_mm / 1000)) *
          ((vazao / 3600 / (Real.pi * (diametro_mm / 1000) ^ 2 / 4)) ^ 2 /
            (2 * 9.81)),
        k * ((vazao / 3600 / (Real.pi * (diametro_mm / 1000) ^ 2 / 4)) ^ 2 /
          (2 * 9.81))) := by
  have hdm : 0 < diametro_mm / 1000 := div_pos hd (by norm_num)
  have harea : 0 < Real.pi * (diametro_mm / 1000) ^ 2 / 4 :=
    div_pos (mul_pos Real.pi_pos (pow_pos hdm 2)) (by norm_num)
  refine ⟨fun re rug_m dm => ⟨?_, ?_, ?_⟩, ?_, ?_⟩
  · intro h
    rw [fator_atrito, if_pos h]
  · intro h1 h2
    rw [fator_atrito, if_neg (not_lt.mpr h2), if_pos h1]
  · intro h
    rw [fator_atrito, if_neg (not_lt.mpr (h.trans (by norm_num))),
      if_neg (not_lt.mpr h)]
  · rw [reynolds, if_pos]
    exact_mod_cast hnu
  · exact calcular_perda_carga_eq vazao diametro_mm comprimento rug k f p hf
      (ne_of_gt harea)

/-- Witness for C1: the head-loss equation at the concrete scenario
(water, 50 m³/h, 100 mm, 100 m, 0.15 mm, K = 5). -/
theorem fator_atrito_spec_witness :
    calcular_perda_carga 50 100 100 0.15 5 "Água a 20°C" =
      some
        (fator_atrito
            (reynolds (50 / 3600 / (Real.pi * (100 / 1000) ^ 2 / 4))
              (100 / 1000) ((1.004e-6 : ℚ) : ℝ)) (0.15 / 1000)
            (100 / 1000) *
          (100 / (100 / 1000)) *
          ((50 / 3600 / (Real.pi * (100 / 1000) ^ 2 / 4)) ^ 2 / (2 * 9.81)),
        5 * ((50 / 3600 / (Real.pi * (100 / 1000) ^ 2 / 4)) ^ 2 /
          (2 * 9.81))) :=
  (fator_atrito_spec 50 100 100 0.15 5 "Água a 20°C" ⟨998.2, 1.004e-6⟩
    (by simp [FLUIDOS]) (by norm_num) (by norm_num)).2.2

/-- C9: with negative flow rate, positive diameter and viscosity, and a
positive loss coefficient, the frictional head loss is exactly 0 (the
Reynolds number is negative, so the friction factor is 0) while the
localized head loss K·v²/(2·9.81) is strictly positive. -/
theorem perda_principal_zero_vazao_negativa (v d l rg k : ℝ) (f : String)
    (p : FluidProps) (hf : FLUIDOS f = some p) (hnu : 0 < p.nu)
    (hv : v < 0) (hd : 0 < d) (hk : 0 < k) :
    calcular_perda_carga v d l rg k f =
      some (0,
        k * ((v / 3600 / (Real.pi * (d / 1000) ^ 2 / 4)) ^ 2 / (2 * 9.81))) ∧
    0 < k * ((v / 3600 / (Real.pi * (d / 1000) ^ 2 / 4)) ^ 2 / (2 * 9.81)) := by
  have hdm : 0 < d / 1000 := div_pos hd (by norm_num)
  have harea : 0 < Real.pi * (d / 1000) ^ 2 / 4 :=
    div_pos (mul_pos Real.pi_pos (pow_pos hdm 2)) (by norm_num)
  have hvel : v / 3600 / (Real.pi * (d / 1000) ^ 2 / 4) < 0 :=
    div_neg_of_neg_of_pos (div_neg_of_neg_of_pos hv (by norm_num)) harea
  have hnuR : (0 : ℝ) < (p.nu : ℝ) := by exact_mod_cast hnu
  have hre : reynolds (v / 3600 / (Real.pi * (d / 1000) ^ 2 / 4)) (d / 1000)
      (p.nu : ℝ) < 0 := by
    rw [reynolds, if_pos hnuR]
    exact div_neg_of_neg_of_pos (mul_neg_of_neg_of_pos hvel hdm) hnuR
  have hfa : fator_atrito
      (reynolds (v / 3600 / (Real.pi * (d / 1000) ^ 2 / 4)) (d / 1000)
        (p.nu : ℝ)) (rg / 1000) (d / 1000) = 0 := by
    rw [fator_atrito, if_neg (not_lt.mpr (hre.le.trans (by norm_num))),
      if_neg (not_lt.mpr hre.le)]
  constructor
  · rw [calcular_perda_carga_eq v d l rg k f p hf (ne_of_gt harea), hfa,
      zero_mul, zero_mul]
  · have hv2 : 0 < (v / 3600 / (Real.pi * (d / 1000) ^ 2 / 4)) ^ 2 :=
      pow_two_pos_of_ne_zero hvel.ne
    exact mul_pos hk (div_pos hv2 (by norm_num))

/-- Witness for C9 at concrete inputs (flow −1 m³/h, diameter 100 mm,
K = 5, water). -/
theorem perda_principal_zero_vazao_negativa_witness :
    calcular_perda_carga (-1) 100 1 0 5 "Água a 20°C" =
      some (0,
        5 * (((-1) / 3600 / (Real.pi * (100 / 1000) ^ 2 / 4)) ^ 2 /
          (2 * 9.81))) ∧
    0 < 5 * (((-1 : ℝ) / 3600 / (Real.pi * (100 / 1000) ^ 2 / 4)) ^ 2 /
      (2 * 9.81)) :=
  perda_principal_zero_vazao_negativa (-1) 100 1 0 5 "Água a 20°C"
    ⟨998.2, 1.004e-6⟩ (by simp [FLUIDOS]) (by norm_num) (by norm_num)
    (by norm_num) (by norm_num)

/-- Where `fator_atrito_exc` returns a value, it is the value of the
total `fator_atrito`. -/
lemma fator_atrito_exc_some (re rg dm fa : ℝ)
    (h : fator_atrito_exc re rg dm = some fa) : fator_atrito re rg dm = fa := by
  unfold fator_atrito_exc at h
  unfold fator_atrito
  by_cases h1 : re > 4000
  · rw [if_pos h1] at h ⊢
    by_cases h2 : rg / (3.7 * dm) + 5.74 / re ^ (0.9 : ℝ) ≤ 0
    · rw [if_pos h2] at h
      cases h
    · rw [if_neg h2] at h
      by_cases h3 : Real.logb 10 (rg / (3.7 * dm) + 5.74 / re ^ (0.9 : ℝ)) = 0
      · rw [if_pos h3] at h
        cases h
      · rw [if_neg h3] at h
        exact Option.some.inj h
  · rw [if_neg h1] at h ⊢
    by_cases h2 : re > 0
    · rw [if_pos h2] at h ⊢
      exact Option.some.inj h
    · rw [if_neg h2] at h ⊢
      exact Option.some.inj h

/-- A non-positive Reynolds number takes the final zero branch of
`fator_atrito_exc`. -/
lemma fator_atrito_exc_nonpos (re rg dm : ℝ) (h : re ≤ 0) :
    fator_atrito_exc re rg dm = some 0 := by
  rw [fator_atrito_exc, if_neg (not_lt.mpr (h.trans (by norm_num))),
    if_neg (not_lt.mpr h)]

/-- The Reynolds computation is non-positive whenever velocity times
diameter is non-positive, whatever the viscosity. -/
lemma reynolds_nonpos (vel dm nu : ℝ) (h : vel * dm ≤ 0) :
    reynolds vel dm nu ≤ 0 := by
  rw [reynolds]
  split_ifs with h1
  · exact div_nonpos_iff.mpr (Or.inr ⟨h, h1.le⟩)
  · exact le_refl 0

/-- Unfolding lemma for `calcular_perda_carga_exc` on a known fluid when
the cross-sectional area is nonzero. -/
lemma calcular_perda_carga_exc_eq (v d l rg k : ℝ) (f : String)
    (p : FluidProps) (hf : FLUIDOS f = some p)
    (hd : ¬ Real.pi * (d / 1000) ^ 2 / 4 = 0) :
    calcular_perda_carga_exc v d l rg k f =
      Option.map
        (fun fa =>
          (fa * (l / (d / 1000)) *
            ((v / 3600 / (Real.pi * (d / 1000) ^ 2 / 4)) ^ 2 / (2 * 9.81)),
          k * ((v / 3600 / (Real.pi * (d / 1000) ^ 2 / 4)) ^ 2 / (2 * 9.81))))
        (fator_atrito_exc
          (reynolds (v / 3600 / (Real.pi * (d / 1000) ^ 2 / 4)) (d / 1000)
            (p.nu : ℝ)) (rg / 1000) (d / 1000)) := by
  unfold calcular_perda_carga_exc
  rw [hf]
  dsimp only
  rw [if_neg hd]
  cases fator_atrito_exc
    (reynolds (v / 3600 / (Real.pi * (d / 1000) ^ 2 / 4)) (d / 1000)
      (p.nu : ℝ)) (rg / 1000) (d / 1000) <;> rfl

/-- The error-faithful head-loss function refines the total one: whenever
it returns a pair, the total embedding returns the same pair. -/
lemma calcular_perda_carga_exc_agrees (v d l rg k : ℝ) (f : String)
    (pr : ℝ × ℝ) (h : calcular_perda_carga_exc v d l rg k f = some pr) :
    calcular_perda_carga v d l rg k f = some pr := by
  unfold calcular_perda_carga_exc at h
  unfold calcular_perda_carga
  cases hF : FLUIDOS f with
  | none => rw [hF] at h; cases h
  | some p =>
    rw [hF] at h
    dsimp only at h ⊢
    by_cases harea : Real.pi * (d / 1000) ^ 2 / 4 = 0
    · rw [if_pos harea] at h ⊢
      exact h
    · rw [if_neg harea] at h ⊢
      cases hfa : fator_atrito_exc
          (reynolds (v / 3600 / (Real.pi * (d / 1000) ^ 2 / 4)) (d / 1000)
            (p.nu : ℝ)) (rg / 1000) (d / 1000) with
      | none => rw [hfa] at h; cases h
      | some fa =>
        rw [hfa] at h
        rw [fator_atrito_exc_some _ _ _ _ hfa]
        exact h

/-- Bounding the area below by replacing π with 3 bounds the Reynolds
number above, for nonnegative flow and positive diameter and viscosity. -/
lemma reynolds_le_of_pi_bound (v d nu : ℝ) (hv : 0 ≤ v) (hd : 0 < d)
    (hnu : 0 < nu)
    (hb : v / 3600 / (3 * (d / 1000) ^ 2 / 4) * (d / 1000) / nu ≤ 4000) :
    reynolds (v / 3600 / (Real.pi * (d / 1000) ^ 2 / 4)) (d / 1000) nu ≤
      4000 := by
  have hdm : 0 < d / 1000 := div_pos hd (by norm_num)
  have hv36 : 0 ≤ v / 3600 := div_nonneg hv (by norm_num)
  have hpi3 : (3 : ℝ) ≤ Real.pi := Real.pi_gt_three.le
  have hA3 : 0 < 3 * (d / 1000) ^ 2 / 4 :=
    div_pos (mul_pos (by norm_num) (pow_pos hdm 2)) (by norm_num)
  have hvel : v / 3600 / (Real.pi * (d / 1000) ^ 2 / 4) ≤
      v / 3600 / (3 * (d / 1000) ^ 2 / 4) := by
    gcongr
  rw [reynolds, if_pos hnu]
  refine le_trans ?_ hb
  gcongr

/-- C3 fails as stated: the core performs no input validation.  The
energy analysis accepts pump efficiency 3/2 (outside [0,1]) and 25 daily
hours (outside [0,24]) and still computes a result, and the error-faithful
head-loss computation accepts a negative diameter together with a
negative length and still computes a result; no `InvalidInputError` path
exists. -/
theorem nucleo_sem_validacao_cex :
    (calcular_analise_energetica 1 1 (3 / 2) 1 25 1 "Água a 20°C").isSome =
      true ∧
    (calcular_perda_carga_exc 1 (-1) (-5) 0 0 "Água a 20°C").isSome =
      true := by
  constructor
  · rw [calcular_analise_energetica_eq 1 1 (3 / 2) 1 25 1 "Água a 20°C"
      ⟨998.2, 1.004e-6⟩ (by simp [FLUIDOS])]
    rfl
  · have hdm : ((-1 : ℝ) / 1000) < 0 := by norm_num
    have harea : (0 : ℝ) < Real.pi * ((-1 : ℝ) / 1000) ^ 2 / 4 :=
      div_pos (mul_pos Real.pi_pos (pow_two_pos_of_ne_zero hdm.ne))
        (by norm_num)
    have hvel : 0 < (1 : ℝ) / 3600 / (Real.pi * ((-1 : ℝ) / 1000) ^ 2 / 4) :=
      div_pos (by norm_num) harea
    rw [calcular_perda_carga_exc_eq 1 (-1) (-5) 0 0 "Água a 20°C"
        ⟨998.2, 1.004e-6⟩ (by simp [FLUIDOS]) (ne_of_gt harea),
      fator_atrito_exc_nonpos _ _ _
        (reynolds_nonpos _ _ _ (mul_neg_of_pos_of_neg hvel hdm).le)]
    rfl

/-- C3 (amended): the core never rejects an invalid input with an
`InvalidInputError` — no validation exists.  On any known fluid key the
energy analysis always returns a computed result, for arbitrary
(including negative or out-of-range) arguments; the head-loss computation
returns a computed result rather than rejecting for negative flow rate,
for negative diameter, and throughout the non-turbulent regime (negative
length included) — with the degenerate-zero cases returning zeros — and
its only failure besides the unknown-fluid lookup is an unvalidated
numeric domain error in the turbulent-branch logarithm, exhibited here at
a negative roughness. -/
theorem nucleo_sem_validacao :
    (∀ (Q H ep em h t : ℚ) (f : String) (p : FluidProps),
      FLUIDOS f = some p →
        (calcular_analise_energetica Q H ep em h t f).isSome = true) ∧
    (∀ (v d l rg k : ℝ) (f : String) (p : FluidProps),
      FLUIDOS f = some p → v < 0 → 0 < d →
        (calcular_perda_carga_exc v d l rg k f).isSome = true) ∧
    (∀ (v d l rg k : ℝ) (f : String) (p : FluidProps),
      FLUIDOS f = some p → 0 < v → d < 0 →
        (calcular_perda_carga_exc v d l rg k f).isSome = true) ∧
    (∀ (v d l rg k : ℝ) (f : String) (p : FluidProps),
      FLUIDOS f = some p → 0 < v → 0 < d →
      reynolds (v / 3600 / (Real.pi * (d / 1000) ^ 2 / 4)) (d / 1000)
          (p.nu : ℝ) ≤ 4000 →
        (calcular_perda_carga_exc v d l rg k f).isSome = true) ∧
    calcular_perda_carga_exc 36000 1000 100 (-3700000) 5 "Água a 20°C" =
      none := by
  refine ⟨?_, ?_, ?_, ?_, ?_⟩
  · intro Q H ep em h t f p hf
    rw [calcular_analise_energetica_eq Q H ep em h t f p hf]
    rfl
  · intro v d l rg k f p hf hv hd
    have hdm : 0 < d / 1000 := div_pos hd (by norm_num)
    have harea : 0 < Real.pi * (d / 1000) ^ 2 / 4 :=
      div_pos (mul_pos Real.pi_pos (pow_pos hdm 2)) (by norm_num)
    have hvel : v / 3600 / (Real.pi * (d / 1000) ^ 2 / 4) < 0 :=
      div_neg_of_neg_of_pos (div_neg_of_neg_of_pos hv (by norm_num)) harea
    rw [calcular_perda_carga_exc_eq v d l rg k f p hf (ne_of_gt harea),
      fator_atrito_exc_nonpos _ _ _
        (reynolds_nonpos _ _ _ (mul_neg_of_neg_of_pos hvel hdm).le)]
    rfl
  · intro v d l rg k f p hf hv hd
    have hdm : d / 1000 < 0 := div_neg_of_neg_of_pos hd (by norm_num)
    have harea : 0 < Real.pi * (d / 1000) ^ 2 / 4 :=
      div_pos (mul_pos Real.pi_pos (pow_two_pos_of_ne_zero hdm.ne))
        (by norm_num)
    have hvel : 0 < v / 3600 / (Real.pi * (d / 1000) ^ 2 / 4) :=
      div_pos (div_pos hv (by norm_num)) harea
    rw [calcular_perda_carga_exc_eq v d l rg k f p hf (ne_of_gt harea),
      fator_atrito_exc_nonpos _ _ _
        (reynolds_nonpos _ _ _ (mul_neg_of_pos_of_neg hvel hdm).le)]
    rfl
  · intro v d l rg k f p hf hv hd hre
    have hdm : 0 < d / 1000 := div_pos hd (by norm_num)
    have harea : 0 < Real.pi * (d / 1000) ^ 2 / 4 :=
      div_pos (mul_pos Real.pi_pos (pow_pos hdm 2)) (by norm_num)
    rw [calcular_perda_carga_exc_eq v d l rg k f p hf (ne_of_gt harea)]
    rcases le_or_lt
        (reynolds (v / 3600 / (Real.pi * (d / 1000) ^ 2 / 4)) (d / 1000)
          (p.nu : ℝ)) 0 with h0 | h0
    · rw [fator_atrito_exc_nonpos _ _ _ h0]
      rfl
    · rw [fator_atrito_exc, if_neg (not_lt.mpr hre), if_pos h0]
      rfl
  · have hpi0 : (0 : ℝ) < Real.pi := Real.pi_pos
    have hpi4 : Real.pi < 4 := by
      have := Real.pi_lt_315
      linarith
    have harea : (0 : ℝ) < Real.pi * ((1000 : ℝ) / 1000) ^ 2 / 4 := by
      have h1 : ((1000 : ℝ) / 1000) = 1 := by norm_num
      rw [h1]
      simpa using div_pos hpi0 (by norm_num : (0 : ℝ) < 4)
    have hnuR : (0 : ℝ) < ((1.004e-6 : ℚ) : ℝ) := by norm_num
    rw [calcular_perda_carga_exc_eq 36000 1000 100 (-3700000) 5
      "Água a 20°C" ⟨998.2, 1.004e-6⟩ (by simp [FLUIDOS]) (ne_of_gt harea)]
    have hre : (4000 : ℝ) <
        reynolds (36000 / 3600 / (Real.pi * ((1000 : ℝ) / 1000) ^ 2 / 4))
          ((1000 : ℝ) / 1000) ((1.004e-6 : ℚ) : ℝ) := by
      rw [reynolds, if_pos hnuR]
      have h1 : ((1000 : ℝ) / 1000) = 1 := by norm_num
      rw [h1]
      have h2 : (36000 : ℝ) / 3600 / (Real.pi * 1 ^ 2 / 4) = 40 / Real.pi := by
        field_simp
        ring
      rw [h2]
      have h3 : (10 : ℝ) ≤ 40 / Real.pi := by
        rw [le_div_iff hpi0]
        nlinarith
      have h4 : ((1.004e-6 : ℚ) : ℝ) = 1.004e-6 := by norm_num
      rw [mul_one, h4]
      have h5 : (10 : ℝ) / 1.004e-6 ≤ 40 / Real.pi / 1.004e-6 := by
        gcongr
      have h6 : (4000 : ℝ) < 10 / 1.004e-6 := by norm_num
      linarith
    have hre1 : (1 : ℝ) ≤
        reynolds (36000 / 3600 / (Real.pi * ((1000 : ℝ) / 1000) ^ 2 / 4))
          ((1000 : ℝ) / 1000) ((1.004e-6 : ℚ) : ℝ) := by
      linarith
    have hrp : (1 : ℝ) ≤
        reynolds (36000 / 3600 / (Real.pi * ((1000 : ℝ) / 1000) ^ 2 / 4))
          ((1000 : ℝ) / 1000) ((1.004e-6 : ℚ) : ℝ) ^ (0.9 : ℝ) := by
      have h0 := Real.rpow_zero
        (reynolds (36000 / 3600 / (Real.pi * ((1000 : ℝ) / 1000) ^ 2 / 4))
          ((1000 : ℝ) / 1000) ((1.004e-6 : ℚ) : ℝ))
      calc (1 : ℝ) = _ ^ (0 : ℝ) := h0.symm
        _ ≤ _ ^ (0.9 : ℝ) :=
          Real.rpow_le_rpow_of_exponent_le hre1 (by norm_num)
    have harg : (-3700000 : ℝ) / 1000 / (3.7 * ((1000 : ℝ) / 1000)) +
        5.74 / reynolds (36000 / 3600 /
            (Real.pi * ((1000 : ℝ) / 1000) ^ 2 / 4))
          ((1000 : ℝ) / 1000) ((1.004e-6 : ℚ) : ℝ) ^ (0.9 : ℝ) ≤ 0 := by
      have h7 : (-3700000 : ℝ) / 1000 / (3.7 * ((1000 : ℝ) / 1000)) =
          -1000 := by norm_num
      have h8 : (5.74 : ℝ) /
          reynolds (36000 / 3600 / (Real.pi * ((1000 : ℝ) / 1000) ^ 2 / 4))
            ((1000 : ℝ) / 1000) ((1.004e-6 : ℚ) : ℝ) ^ (0.9 : ℝ) ≤ 5.74 :=
        div_le_self (by norm_num) hrp
      rw [h7]
      linarith
    rw [fator_atrito_exc, if_pos hre, if_pos harg]
    rfl

/-- Witness for the amended C3 at concrete inputs: out-of-range energy
arguments, negative flow, negative diameter, and a laminar run with
negative length all produce computed results. -/
theorem nucleo_sem_validacao_witness :
    (calcular_analise_energetica 1 1 2 1 30 1 "Água a 20°C").isSome =
      true ∧
    (calcular_perda_carga_exc (-50) 100 100 0.15 5 "Água a 20°C").isSome =
      true ∧
    (calcular_perda_carga_exc 50 (-100) 100 0.15 5 "Água a 20°C").isSome =
      true ∧
    (calcular_perda_carga_exc 0.9 1000 (-100) 0.15 5
      "Glicerina a 20°C").isSome = true :=
  ⟨nucleo_sem_validacao.1 1 1 2 1 30 1 "Água a 20°C" ⟨998.2, 1.004e-6⟩
      (by simp [FLUIDOS]),
   nucleo_sem_validacao.2.1 (-50) 100 100 0.15 5 "Água a 20°C"
      ⟨998.2, 1.004e-6⟩ (by simp [FLUIDOS]) (by norm_num) (by norm_num),
   nucleo_sem_validacao.2.2.1 50 (-100) 100 0.15 5 "Água a 20°C"
      ⟨998.2, 1.004e-6⟩ (by simp [FLUIDOS]) (by norm_num) (by norm_num),
   nucleo_sem_validacao.2.2.2.1 0.9 1000 (-100) 0.15 5 "Glicerina a 20°C"
      ⟨1261.0, 1.49e-3⟩ (by simp [FLUIDOS]) (by norm_num) (by norm_num)
      (reynolds_le_of_pi_bound 0.9 1000 ((1.49e-3 : ℚ) : ℝ) (by norm_num)
        (by norm_num) (by norm_num) (by norm_num))⟩

end Pumps
